import Mathlib

/-!
Verification of the skillcast session/credential subsystem.

The definitions below are a shallow embedding of the authentication core:
the auth controller (login, refresh, logout, changePassword), the
authentication middleware, and the client-side session logic (the axios
response interceptor and the AuthContext silent-refresh routine).

Modelling conventions:
- a JWT is data: its payload, the secret it was signed with, and its
  expiry instant; jwtVerify checks secret equality and expiry, which
  mirrors signature verification plus the exp claim;
- the password hash is an idealized one-way function: a hash wraps the
  plaintext and compare checks equality, mirroring bcrypt.hash/compare;
- the relational store is the refresh_tokens list inside ServerState;
  SQL SELECT/INSERT/DELETE/UPDATE become List.filter/append/map;
- a JS falsy token field (undefined or the empty string) is modelled as
  Option.none.
-/

namespace Skillcast

/-- Decoded JWT payload: subject id, and the role claim when present
(the access token carries a role, the refresh token does not). -/
structure Claims where
  id : Nat
  role : Option String
deriving DecidableEq, Repr

/-- Model of a signed JWT: payload, signing secret and expiry instant. -/
structure Jwt where
  payload : Claims
  secret : String
  exp : Nat
deriving DecidableEq, Repr

/-- A token string presented by a client: either a structurally
well-formed JWT or garbage that no verification accepts. -/
inductive TokenCandidate where
  | wellFormed (t : Jwt)
  | malformed
deriving DecidableEq, Repr

/-- Model of jwt.sign payload secret with the given lifetime. -/
def jwtSign (payload : Claims) (secret : String) (now lifetime : Nat) : Jwt :=
  { payload := payload, secret := secret, exp := now + lifetime }

/-- Model of jwt.verify: succeeds iff the token is well formed, its
signing secret matches and it has not expired. -/
def jwtVerify (t : TokenCandidate) (secret : String) (now : Nat) : Option Claims :=
  match t with
  | .malformed => none
  | .wellFormed j => if j.secret = secret ∧ now < j.exp then some j.payload else none

/-- Environment variables consulted by the auth code. -/
structure Env where
  JWT_SECRET : Option String
  JWT_REFRESH_SECRET : Option String
deriving DecidableEq, Repr

/-- JavaScript a or-else d on an env string: undefined and the empty
string are both falsy and fall through to the default. -/
def jsOrDefault : Option String → String → String
  | some s, d => if s = "" then d else s
  | none, d => d

/-- Mirrors: const ACCESS_SECRET = process.env.JWT_SECRET or a dev default. -/
def ACCESS_SECRET (e : Env) : String :=
  jsOrDefault e.JWT_SECRET "dev_access_secret"

/-- Mirrors: const REFRESH_SECRET = process.env.JWT_REFRESH_SECRET or
process.env.JWT_SECRET or a dev default. -/
def REFRESH_SECRET (e : Env) : String :=
  jsOrDefault e.JWT_REFRESH_SECRET (jsOrDefault e.JWT_SECRET "dev_refresh_secret")

/-- Idealized bcrypt hash: one-way in the code, modelled as a wrapper so
that compare is equality on the wrapped plaintext. -/
structure PwdHash where
  plain : String
deriving DecidableEq, Repr

/-- Model of bcrypt.hash (the salt does not matter for compare). -/
def bcryptHash (p : String) : PwdHash := ⟨p⟩

/-- Model of bcrypt.compare plain hash. -/
def bcryptCompare (plain : String) (h : PwdHash) : Bool := h.plain == plain

/-- Row of the users table (the columns the auth core reads). -/
structure User where
  id : Nat
  username : String
  email : String
  password_hash : PwdHash
  role : String
  credit : Nat
deriving DecidableEq, Repr

/-- Row of the refresh_tokens table: (token, user_id, expires_at). -/
structure RefreshRecord where
  user_id : Nat
  token : TokenCandidate
  expires_at : Nat
deriving DecidableEq, Repr

/-- Server-side persistent state: users table and refresh-token store. -/
structure ServerState where
  users : List User
  refresh_tokens : List RefreshRecord
deriving DecidableEq, Repr

/-- Identity summary returned to the client on login. -/
structure UserSummary where
  id : Nat
  username : String
  role : String
  credit : Nat
deriving DecidableEq, Repr

/-- HTTP response of an auth endpoint: status plus whichever JSON
fields the endpoint sets. -/
structure ApiResponse where
  status : Nat
  error : Option String := none
  message : Option String := none
  accessToken : Option Jwt := none
  refreshToken : Option Jwt := none
  user : Option UserSummary := none
deriving DecidableEq, Repr

/-- Mirrors generateTokens: a 15-minute access token signed with the
access secret carrying id and role, and a 7-day refresh token signed
with the refresh secret carrying only the id. -/
def generateTokens (e : Env) (now : Nat) (id : Nat) (role : String) : Jwt × Jwt :=
  ( jwtSign { id := id, role := some role } (ACCESS_SECRET e) now (15 * 60)
  , jwtSign { id := id, role := none } (REFRESH_SECRET e) now (7 * 24 * 3600) )

/-- Mirrors the login controller: dead-code secret check, user lookup by
email, bcrypt compare, token pair issuance, refresh-token INSERT, and
the JSON response with both tokens and the user summary. -/
def login (e : Env) (st : ServerState) (now : Nat) (email password : String) :
    ApiResponse × ServerState :=
  if ACCESS_SECRET e = "" ∨ REFRESH_SECRET e = "" then
    ({ status := 500, error := some "Server auth secrets missing" }, st)
  else
    match st.users.find? (fun u => u.email == email) with
    | none => ({ status := 401, error := some "Invalid Credentials" }, st)
    | some user =>
      if bcryptCompare password user.password_hash then
        let tokens := generateTokens e now user.id user.role
        let st1 : ServerState :=
          { st with refresh_tokens := st.refresh_tokens ++
              [{ user_id := user.id, token := .wellFormed tokens.2,
                 expires_at := now + 7 * 24 * 3600 }] }
        ({ status := 200, accessToken := some tokens.1, refreshToken := some tokens.2,
           user := some { id := user.id, username := user.username,
                          role := user.role, credit := user.credit } }, st1)
      else ({ status := 401, error := some "Invalid Credentials" }, st)

/-- Mirrors the refreshToken controller: reject a falsy token with 401,
then SELECT the token from the store and reject with 403 Token revoked
when absent, then jwt.verify (403 Invalid refresh token on failure, as
the thrown error lands in the catch), then user lookup (a missing user
also throws into the catch), then issue a fresh pair but return only the
new access token. The store is never written. -/
def refreshTokenEndpoint (e : Env) (st : ServerState) (now : Nat)
    (token : Option TokenCandidate) : ApiResponse × ServerState :=
  match token with
  | none => ({ status := 401, error := some "Refresh token required" }, st)
  | some t =>
    if (st.refresh_tokens.filter (fun r => r.token == t)).length = 0 then
      ({ status := 403, error := some "Token revoked" }, st)
    else
      match jwtVerify t (REFRESH_SECRET e) now with
      | none => ({ status := 403, error := some "Invalid refresh token" }, st)
      | some decoded =>
        match st.users.find? (fun u => u.id == decoded.id) with
        | none => ({ status := 403, error := some "Invalid refresh token" }, st)
        | some user =>
          let newTokens := generateTokens e now user.id user.role
          ({ status := 200, accessToken := some newTokens.1 }, st)

/-- Mirrors the logout controller: DELETE FROM refresh_tokens WHERE
token matches (a falsy token deletes nothing), then a fixed generic
200 response independent of whether anything was deleted. -/
def logout (st : ServerState) (token : Option TokenCandidate) :
    ApiResponse × ServerState :=
  let st1 : ServerState :=
    match token with
    | none => st
    | some t => { st with refresh_tokens := st.refresh_tokens.filter (fun r => !(r.token == t)) }
  ({ status := 200, message := some "Logged out successfully" }, st1)

/-- Mirrors the changePassword controller: 400 on missing fields, 400 on
a short new password, 404 on unknown user, 401 on a wrong current
password, and on success UPDATE the stored hash and DELETE every
refresh-token row of that user. -/
def changePassword (st : ServerState) (userId : Nat)
    (currentPassword newPassword : Option String) : ApiResponse × ServerState :=
  if currentPassword.getD "" == "" || newPassword.getD "" == "" then
    ({ status := 400, error := some "Current and new password are required" }, st)
  else if (newPassword.getD "").length < 8 then
    ({ status := 400, error := some "New password must be at least 8 characters" }, st)
  else
    match st.users.find? (fun u => u.id == userId) with
    | none => ({ status := 404, error := some "User not found" }, st)
    | some user =>
      if bcryptCompare (currentPassword.getD "") user.password_hash then
        let st1 : ServerState :=
          { st with
            users := st.users.map (fun u =>
              if u.id == userId then { u with password_hash := bcryptHash (newPassword.getD "") } else u),
            refresh_tokens := st.refresh_tokens.filter (fun r => !(r.user_id == userId)) }
        ({ status := 200, message := some "Password updated successfully" }, st1)
      else
        ({ status := 401, error := some "Current password is incorrect" }, st)

/-- Result of the per-request guard middleware. -/
inductive GuardResult where
  | reject (status : Nat) (error : String)
  | proceed (user : Claims)
deriving DecidableEq, Repr

/-- Mirrors authenticateToken: 401 when no bearer token is presented,
403 when jwt.verify fails (malformed, bad signature, or expired), and
on success the decoded claims are attached as req.user. -/
def authenticateToken (e : Env) (now : Nat) (token : Option TokenCandidate) : GuardResult :=
  match token with
  | none => .reject 401 "Access Denied: No token provided"
  | some t =>
    match jwtVerify t (ACCESS_SECRET e) now with
    | none => .reject 403 "Invalid or expired token"
    | some user => .proceed user

/-- Client-side localStorage slice the auth code uses. -/
structure ClientStorage where
  user : Option UserSummary
  accessToken : Option Jwt
  refreshToken : Option TokenCandidate
deriving DecidableEq, Repr

/-- localStorage.clear() as seen through the auth slice. -/
def clearedStorage : ClientStorage :=
  { user := none, accessToken := none, refreshToken := none }

/-- Outcome of the client-issued POST /auth/refresh as observed at the
call site: success with a new access token, an HTTP rejection, or a
network failure (the promise rejects with no response at all). -/
inductive RefreshCallOutcome where
  | ok (accessToken : Jwt)
  | httpError (status : Nat)
  | networkFailure
deriving DecidableEq, Repr

/-- Mirrors tryRefresh in AuthContext: with no cached refresh token it
does nothing; otherwise on success it stores the new access token, and
on any thrown error, HTTP rejection and network failure alike, it runs
localStorage.clear() and drops the user. -/
def tryRefresh (storage : ClientStorage) (outcome : RefreshCallOutcome) : ClientStorage :=
  match storage.refreshToken with
  | none => storage
  | some _ =>
    match outcome with
    | .ok a => { storage with accessToken := some a }
    | .httpError _ => clearedStorage
    | .networkFailure => clearedStorage

/-- What the axios response interceptor resolves an error response to. -/
inductive ClientResult where
  | replayed (newAccess : Jwt)
  | loggedOutRedirect
  | rejectedToCaller
deriving DecidableEq, Repr

/-- Mirrors the axios response-interceptor error handler: only when the
failed response carries HTTP status 401 and the request is not yet
marked retried does it mark it, call refresh, store the new access
token and replay; a failed refresh clears storage and redirects to
login; every other error, including a network failure with no response
status, is rejected to the caller with storage untouched. -/
def interceptorHandleError (storage : ClientStorage) (status : Option Nat)
    (alreadyRetried : Bool) (refreshOutcome : RefreshCallOutcome) :
    ClientStorage × ClientResult :=
  if status = some 401 ∧ alreadyRetried = false then
    match refreshOutcome with
    | .ok a => ({ storage with accessToken := some a }, .replayed a)
    | .httpError _ => (clearedStorage, .loggedOutRedirect)
    | .networkFailure => (clearedStorage, .loggedOutRedirect)
  else
    (storage, .rejectedToCaller)

/-! Concrete fixtures used by witnesses and counterexamples. -/

/-- Environment with both signing secrets absent. -/
def envAbsent : Env := { JWT_SECRET := none, JWT_REFRESH_SECRET := none }

/-- Sample member identity used in concrete runs. -/
def alice : User :=
  { id := 1, username := "alice", email := "alice@example.com",
    password_hash := bcryptHash "correct horse", role := "member", credit := 10 }

/-- Access token as minted for alice at time 0 (expires at 900). -/
def aliceAccess : Jwt := (generateTokens envAbsent 0 alice.id alice.role).1

/-- Refresh token as minted for alice at time 0 (expires at 604800). -/
def aliceRefresh : Jwt := (generateTokens envAbsent 0 alice.id alice.role).2

/-- Server state holding only alice, before any login. -/
def st0 : ServerState := { users := [alice], refresh_tokens := [] }

/-- Server state right after alice logs in at time 0. -/
def stLoggedIn : ServerState := (login envAbsent st0 0 "alice@example.com" "correct horse").2

/-- Client storage holding a cached identity and both of alice's tokens. -/
def storAlice : ClientStorage :=
  { user := some { id := 1, username := "alice", role := "member", credit := 10 },
    accessToken := some aliceAccess,
    refreshToken := some (.wellFormed aliceRefresh) }

/-! Helper lemmas shared across the claim theorems. -/

/-- The refresh endpoint never writes the server state, in any branch. -/
theorem refreshTokenEndpoint_snd (e : Env) (st : ServerState) (now : Nat)
    (tok : Option TokenCandidate) : (refreshTokenEndpoint e st now tok).2 = st := by
  unfold refreshTokenEndpoint
  rcases tok with _ | t
  · rfl
  · dsimp only
    split
    · rfl
    · split
      · rfl
      · split <;> rfl

/-- A token with no row in the refresh store is rejected as revoked. -/
theorem refresh_absent (e : Env) (st : ServerState) (now : Nat) (t : TokenCandidate)
    (h : st.refresh_tokens.filter (fun r => r.token == t) = []) :
    (refreshTokenEndpoint e st now (some t)).1 =
      { status := 403, error := some "Token revoked" } := by
  unfold refreshTokenEndpoint
  simp [h]

/-- Keeping only the rows failing p leaves nothing satisfying p. -/
theorem filter_not_filter {α : Type} (l : List α) (p : α → Bool) :
    (l.filter (fun a => !(p a))).filter p = [] := by
  induction l with
  | nil => rfl
  | cons a l ih =>
    by_cases ha : p a = true
    · simp [List.filter_cons, ha, ih]
    · simp [List.filter_cons, ha, ih]

/- Concrete evaluations checking the fixtures behave as the source does. -/
example : (login envAbsent st0 0 "alice@example.com" "correct horse").1.status = 200 := by decide
example : stLoggedIn.refresh_tokens =
    [{ user_id := 1, token := .wellFormed aliceRefresh, expires_at := 604800 }] := by decide
example : (refreshTokenEndpoint envAbsent stLoggedIn 5 (some (.wellFormed aliceRefresh))).1.status
    = 200 := by decide

/-- C10: a refresh request whose body carries no token (missing or empty,
both JS-falsy) is answered 401 with Refresh token required, the state is
untouched, and the response is the same for any store contents and any
time, so the store is not consulted; 401 differs from the 403 used for
revoked or cryptographically invalid tokens. -/
theorem refresh_missing_token_401 (e : Env) (st st2 : ServerState) (now now2 : Nat) :
    (refreshTokenEndpoint e st now none).1 =
      { status := 401, error := some "Refresh token required" } ∧
    (refreshTokenEndpoint e st now none).2 = st ∧
    (refreshTokenEndpoint e st now none).1 = (refreshTokenEndpoint e st2 now2 none).1 := by
  exact ⟨rfl, rfl, rfl⟩

/-- C5: logout of any token value returns the fixed generic 200 response,
identical across any two stores (so store membership of the token leaks
nothing and an already-revoked token never errors), and afterwards no row
bearing that token remains in the store. -/
theorem logout_generic_idempotent (st st2 : ServerState) (t : TokenCandidate) :
    (logout st (some t)).1 = { status := 200, message := some "Logged out successfully" } ∧
    (logout st (some t)).1 = (logout st2 (some t)).1 ∧
    (logout st (some t)).2.refresh_tokens.filter (fun r => r.token == t) = [] := by
  refine ⟨rfl, rfl, ?_⟩
  simp only [logout]
  exact filter_not_filter st.refresh_tokens (fun r : RefreshRecord => r.token == t)

/-- C7: the guard answers 401 Access Denied when no bearer token is
presented, 403 Invalid or expired token when jwt.verify fails (malformed,
bad signature, or expired), and on success proceeds with the decoded
claims attached as the request identity; the two failure classes carry
distinct status codes. -/
theorem authenticateToken_taxonomy (e : Env) (now : Nat) (t : TokenCandidate) (c : Claims) :
    (authenticateToken e now none = .reject 401 "Access Denied: No token provided") ∧
    (jwtVerify t (ACCESS_SECRET e) now = none →
      authenticateToken e now (some t) = .reject 403 "Invalid or expired token") ∧
    (jwtVerify t (ACCESS_SECRET e) now = some c →
      authenticateToken e now (some t) = .proceed c) := by
  refine ⟨rfl, ?_, ?_⟩ <;> intro h <;> simp [authenticateToken, h]

/-- Witness for C7 at concrete inputs: a malformed token at time 1000 and
alice's fresh access token at time 0. -/
theorem authenticateToken_taxonomy_witness :
    authenticateToken envAbsent 1000 (some .malformed) =
      .reject 403 "Invalid or expired token" ∧
    authenticateToken envAbsent 0 (some (.wellFormed aliceAccess)) =
      .proceed { id := 1, role := some "member" } :=
  ⟨(authenticateToken_taxonomy envAbsent 1000 .malformed ⟨1, some "member"⟩).2.1 (by decide),
   (authenticateToken_taxonomy envAbsent 0 (.wellFormed aliceAccess)
      ⟨1, some "member"⟩).2.2 (by decide)⟩

/-- C1: the refresh endpoint checks store membership first: a token with
no store row is rejected 403 Token revoked whatever its signature status;
a stored token failing jwt.verify is rejected 403 Invalid refresh token;
and refresh of a token right after logout of that token always yields
403 Token revoked. -/
theorem refresh_store_check_first (e : Env) (st : ServerState) (now : Nat) (t : TokenCandidate) :
    (st.refresh_tokens.filter (fun r => r.token == t) = [] →
      (refreshTokenEndpoint e st now (some t)).1 =
        { status := 403, error := some "Token revoked" }) ∧
    (st.refresh_tokens.filter (fun r => r.token == t) ≠ [] →
      jwtVerify t (REFRESH_SECRET e) now = none →
      (refreshTokenEndpoint e st now (some t)).1 =
        { status := 403, error := some "Invalid refresh token" }) ∧
    (refreshTokenEndpoint e (logout st (some t)).2 now (some t)).1 =
      { status := 403, error := some "Token revoked" } := by
  refine ⟨fun h => refresh_absent e st now t h, fun h hv => ?_, ?_⟩
  · unfold refreshTokenEndpoint
    simp [h, hv, List.length_eq_zero]
  · exact refresh_absent e _ now t (by simp only [logout]; exact filter_not_filter st.refresh_tokens (fun r : RefreshRecord => r.token == t))

/-- Witness for C1 at concrete inputs: alice's refresh token against the
empty store, an expired stored token, and refresh after logout. -/
theorem refresh_store_check_first_witness :
    (refreshTokenEndpoint envAbsent st0 5 (some (.wellFormed aliceRefresh))).1 =
      { status := 403, error := some "Token revoked" } ∧
    (refreshTokenEndpoint envAbsent stLoggedIn 1000000 (some (.wellFormed aliceRefresh))).1 =
      { status := 403, error := some "Invalid refresh token" } ∧
    (refreshTokenEndpoint envAbsent
        (logout stLoggedIn (some (.wellFormed aliceRefresh))).2 5
        (some (.wellFormed aliceRefresh))).1 =
      { status := 403, error := some "Token revoked" } :=
  ⟨(refresh_store_check_first envAbsent st0 5 (.wellFormed aliceRefresh)).1 (by decide),
   (refresh_store_check_first envAbsent stLoggedIn 1000000
      (.wellFormed aliceRefresh)).2.1 (by decide) (by decide),
   (refresh_store_check_first envAbsent stLoggedIn 5 (.wellFormed aliceRefresh)).2.2⟩

/-- Verification of the same token at two instants yields the same
payload whenever both succeed. -/
theorem jwtVerify_agree (t : TokenCandidate) (s : String) (n n2 : Nat) (c c2 : Claims)
    (h : jwtVerify t s n = some c) (h2 : jwtVerify t s n2 = some c2) : c2 = c := by
  cases t with
  | malformed => simp [jwtVerify] at h
  | wellFormed j =>
    simp only [jwtVerify, Option.ite_none_right_eq_some, Option.some.injEq] at h h2
    exact h2.2.symm.trans h.2

/-- Success of the refresh endpoint forces every guard to have passed:
the token has a store row, jwt.verify succeeds, and the subject exists. -/
theorem refresh_success_elim (e : Env) (st : ServerState) (now : Nat) (t : TokenCandidate)
    (h : (refreshTokenEndpoint e st now (some t)).1.status = 200) :
    st.refresh_tokens.filter (fun r => r.token == t) ≠ [] ∧
    ∃ c u, jwtVerify t (REFRESH_SECRET e) now = some c ∧
      st.users.find? (fun v => v.id == c.id) = some u := by
  unfold refreshTokenEndpoint at h
  dsimp only at h
  split at h
  · simp at h
  · next hlen =>
    split at h
    · simp at h
    · next c hc =>
      split at h
      · simp at h
      · next u hu =>
        rw [List.length_eq_zero] at hlen
        exact ⟨hlen, c, u, hc, hu⟩

/-- C3: refresh never writes the store (the state component is returned
unchanged in every branch, so the record is neither deleted nor replaced
and nothing is inserted); hence an immediate second refresh of the same
token also succeeds, and a once-successful refresh token keeps
succeeding at any instant at which it still verifies (that is, until its
expiry) as long as the store is not changed by an explicit revocation. -/
theorem refresh_no_rotation (e : Env) (st : ServerState) (now now2 : Nat) (t : TokenCandidate) :
    (refreshTokenEndpoint e st now (some t)).2 = st ∧
    ((refreshTokenEndpoint e st now (some t)).1.status = 200 →
      (refreshTokenEndpoint e (refreshTokenEndpoint e st now (some t)).2 now
        (some t)).1.status = 200) ∧
    ((refreshTokenEndpoint e st now (some t)).1.status = 200 →
      jwtVerify t (REFRESH_SECRET e) now2 ≠ none →
      (refreshTokenEndpoint e st now2 (some t)).1.status = 200) := by
  refine ⟨refreshTokenEndpoint_snd e st now (some t), ?_, ?_⟩
  · intro h
    rw [refreshTokenEndpoint_snd]
    exact h
  · intro h hv
    obtain ⟨hne, c, u, hc, hu⟩ := refresh_success_elim e st now t h
    rcases hv2 : jwtVerify t (REFRESH_SECRET e) now2 with _ | c2
    · exact absurd hv2 hv
    · have hcc : c2 = c := jwtVerify_agree t (REFRESH_SECRET e) now now2 c c2 hc hv2
      unfold refreshTokenEndpoint
      simp [List.length_eq_zero, hne, hv2, hcc, hu]

/-- Witness for C3 at concrete inputs: alice refreshes at time 5 and
again immediately, and again at time 10. -/
theorem refresh_no_rotation_witness :
    (refreshTokenEndpoint envAbsent
        (refreshTokenEndpoint envAbsent stLoggedIn 5 (some (.wellFormed aliceRefresh))).2 5
        (some (.wellFormed aliceRefresh))).1.status = 200 ∧
    (refreshTokenEndpoint envAbsent stLoggedIn 10 (some (.wellFormed aliceRefresh))).1.status
      = 200 :=
  ⟨(refresh_no_rotation envAbsent stLoggedIn 5 10 (.wellFormed aliceRefresh)).2.1 (by decide),
   (refresh_no_rotation envAbsent stLoggedIn 5 10 (.wellFormed aliceRefresh)).2.2
      (by decide) (by decide)⟩

/-- After the UPDATE of the matching row, looking the user up again
returns the new password hash. -/
theorem find?_password_update (l : List User) (uid : Nat) (H : PwdHash) (user : User)
    (h : l.find? (fun u => u.id == uid) = some user) :
    ((l.map (fun u => if u.id == uid then { u with password_hash := H } else u)).find?
      (fun u => u.id == uid)).map User.password_hash = some H := by
  induction l with
  | nil => simp at h
  | cons a l ih =>
    rw [List.map_cons]
    by_cases ha : (a.id == uid) = true
    · rw [if_pos ha, List.find?_cons_of_pos]
      · rfl
      · simpa using ha
    · rw [if_neg ha]
      rw [List.find?_cons_of_neg _ (by simpa using ha)]
      rw [List.find?_cons_of_neg _ (by simpa using ha)] at h
      exact ih h

/-- When every row bearing token t belongs to uid, deleting the rows of
uid leaves no row bearing t. -/
theorem filter_after_revoke_all (l : List RefreshRecord) (uid : Nat) (t : TokenCandidate)
    (h : l.filter (fun r => r.token == t && !(r.user_id == uid)) = []) :
    (l.filter (fun r => !(r.user_id == uid))).filter (fun r => r.token == t) = [] := by
  rw [List.filter_eq_nil_iff] at h ⊢
  intro r hr htok
  have hmem := List.mem_filter.mp hr
  exact h r hmem.1 (by simp [htok, hmem.2])

/-- Reduction of a well-formed changePassword call with a matching
current password to its success response and updated state. -/
theorem changePassword_success_run (st : ServerState) (uid : Nat) (cur np : String)
    (user : User)
    (hcur : cur ≠ "") (hlen : 8 ≤ np.length)
    (hfind : st.users.find? (fun u => u.id == uid) = some user)
    (hmatch : bcryptCompare cur user.password_hash = true) :
    changePassword st uid (some cur) (some np) =
      ({ status := 200, message := some "Password updated successfully" },
       { st with
         users := st.users.map (fun u =>
           if u.id == uid then { u with password_hash := bcryptHash np } else u),
         refresh_tokens := st.refresh_tokens.filter (fun r => !(r.user_id == uid)) }) := by
  have h1 : (cur == "") = false := by simpa using hcur
  have h2 : (np == "") = false := by
    have hne : np ≠ "" := by
      intro hnp
      rw [hnp] at hlen
      simp at hlen
    simpa using hne
  unfold changePassword
  simp [h1, h2, hfind, hmatch, Nat.not_lt.mpr hlen]

/-- C2: an authenticated changePassword whose current password matches
the stored hash answers 200, stores the new hash for that user, and
deletes every refresh-token row of that user; consequently any refresh
token wholly owned by that user thereafter fails refresh with 403 Token
revoked at every instant, in particular well before its 7-day expiry. -/
theorem changePassword_revokes_all_sessions (st : ServerState) (uid : Nat)
    (cur np : String) (user : User) (e : Env) (now : Nat)
    (hcur : cur ≠ "") (hlen : 8 ≤ np.length)
    (hfind : st.users.find? (fun u => u.id == uid) = some user)
    (hmatch : bcryptCompare cur user.password_hash = true) :
    (changePassword st uid (some cur) (some np)).1 =
      { status := 200, message := some "Password updated successfully" } ∧
    ((changePassword st uid (some cur) (some np)).2.users.find?
        (fun u => u.id == uid)).map User.password_hash = some (bcryptHash np) ∧
    (changePassword st uid (some cur) (some np)).2.refresh_tokens.filter
      (fun r => r.user_id == uid) = [] ∧
    ∀ t : TokenCandidate,
      st.refresh_tokens.filter (fun r => r.token == t && !(r.user_id == uid)) = [] →
      (refreshTokenEndpoint e (changePassword st uid (some cur) (some np)).2 now
        (some t)).1 = { status := 403, error := some "Token revoked" } := by
  have hred := changePassword_success_run st uid cur np user hcur hlen hfind hmatch
  refine ⟨by rw [hred], ?_, ?_, ?_⟩
  · rw [hred]
    exact find?_password_update st.users uid (bcryptHash np) user hfind
  · rw [hred]
    exact filter_not_filter st.refresh_tokens (fun r : RefreshRecord => r.user_id == uid)
  · intro t ht
    rw [hred]
    exact refresh_absent e _ now t (filter_after_revoke_all st.refresh_tokens uid t ht)

/-- Witness for C2: alice changes her password after logging in; her old
refresh token then fails refresh as revoked while far from expiry. -/
theorem changePassword_revokes_all_sessions_witness :
    (changePassword stLoggedIn 1 (some "correct horse") (some "newpassword1")).1 =
      { status := 200, message := some "Password updated successfully" } ∧
    (refreshTokenEndpoint envAbsent
        (changePassword stLoggedIn 1 (some "correct horse") (some "newpassword1")).2 5
        (some (.wellFormed aliceRefresh))).1 =
      { status := 403, error := some "Token revoked" } := by
  have h := changePassword_revokes_all_sessions stLoggedIn 1 "correct horse" "newpassword1"
    alice envAbsent 5 (by decide) (by decide) (by decide) (by decide)
  exact ⟨h.1, h.2.2.2 (.wellFormed aliceRefresh) (by decide)⟩

/-- C6: a well-formed changePassword whose current password does not
match the stored hash answers 401 Current password is incorrect and
returns the state unchanged: the stored hash is untouched and the
refresh-token store is untouched. -/
theorem changePassword_wrong_current_no_change (st : ServerState) (uid : Nat)
    (cur np : String) (user : User)
    (hcur : cur ≠ "") (hlen : 8 ≤ np.length)
    (hfind : st.users.find? (fun u => u.id == uid) = some user)
    (hmatch : bcryptCompare cur user.password_hash = false) :
    changePassword st uid (some cur) (some np) =
      ({ status := 401, error := some "Current password is incorrect" }, st) := by
  have h1 : (cur == "") = false := by simpa using hcur
  have h2 : (np == "") = false := by
    have hne : np ≠ "" := by
      intro hnp
      rw [hnp] at hlen
      simp at hlen
    simpa using hne
  unfold changePassword
  simp [h1, h2, hfind, hmatch, Nat.not_lt.mpr hlen]

/-- Witness for C6: a wrong current password against the logged-in state
leaves the exact state, so alice's session keeps working. -/
theorem changePassword_wrong_current_no_change_witness :
    changePassword stLoggedIn 1 (some "wrong guess") (some "newpassword1") =
      ({ status := 401, error := some "Current password is incorrect" }, stLoggedIn) :=
  changePassword_wrong_current_no_change stLoggedIn 1 "wrong guess" "newpassword1" alice
    (by decide) (by decide) (by decide) (by decide)

/-- Fresh access token the refresh endpoint would mint at time 1000. -/
def freshTok : Jwt := (generateTokens envAbsent 1000 alice.id alice.role).1

/-- C4 (failing-input evaluation): alice's correctly signed access token
past its 15-minute expiry is rejected 403 by the guard, yet the client
interceptor rejects a 403 error to the caller without refreshing, even
though the request was not yet retried and a refresh would have
succeeded; its refresh-and-replay branch fires only on status 401. -/
theorem stale_access_never_refreshed :
    authenticateToken envAbsent 1000 (some (.wellFormed aliceAccess)) =
      .reject 403 "Invalid or expired token" ∧
    interceptorHandleError storAlice (some 403) false (.ok freshTok) =
      (storAlice, .rejectedToCaller) ∧
    interceptorHandleError storAlice (some 401) false (.ok freshTok) =
      ({ storAlice with accessToken := some freshTok }, .replayed freshTok) := by
  refine ⟨by decide, by decide, by decide⟩

/-- C8 counterexample: with both signing secrets absent from the
environment, login with valid credentials still answers 200 and mints
both tokens instead of failing with a 500 misconfiguration error. -/
theorem login_without_secrets_mints :
    (login envAbsent st0 0 "alice@example.com" "correct horse").1.status = 200 ∧
    (login envAbsent st0 0 "alice@example.com" "correct horse").1.accessToken =
      some aliceAccess ∧
    (login envAbsent st0 0 "alice@example.com" "correct horse").1.refreshToken =
      some aliceRefresh := by decide

/-- A jsOrDefault fallback chain with a nonempty default is nonempty. -/
theorem jsOrDefault_ne_empty (o : Option String) (d : String) (hd : d ≠ "") :
    jsOrDefault o d ≠ "" := by
  rcases o with _ | s
  · exact hd
  · by_cases hs : s = ""
    · simp only [jsOrDefault]
      rw [if_pos hs]
      exact hd
    · simp only [jsOrDefault]
      rw [if_neg hs]
      exact hs

/-- C8 amended: absent signing secrets are replaced by baked-in dev
defaults, so the resolved secrets are never the empty string and the 500
misconfiguration branch of login is unreachable; with an empty
environment the resolved secrets are the dev defaults and issuance
proceeds. -/
theorem secrets_always_default (e : Env) (st : ServerState) (now : Nat)
    (email pwd : String) :
    (ACCESS_SECRET e == "") = false ∧
    (REFRESH_SECRET e == "") = false ∧
    ((login e st now email pwd).1.status == 500) = false ∧
    ACCESS_SECRET envAbsent = "dev_access_secret" ∧
    REFRESH_SECRET envAbsent = "dev_refresh_secret" := by
  have ha : ACCESS_SECRET e ≠ "" :=
    jsOrDefault_ne_empty e.JWT_SECRET "dev_access_secret" (by decide)
  have hr : REFRESH_SECRET e ≠ "" :=
    jsOrDefault_ne_empty e.JWT_REFRESH_SECRET
      (jsOrDefault e.JWT_SECRET "dev_refresh_secret")
      (jsOrDefault_ne_empty e.JWT_SECRET "dev_refresh_secret" (by decide))
  refine ⟨by simpa using ha, by simpa using hr, ?_, by decide, by decide⟩
  have hcond : ¬(ACCESS_SECRET e = "" ∨ REFRESH_SECRET e = "") := by
    push_neg
    exact ⟨ha, hr⟩
  unfold login
  rw [if_neg hcond]
  cases st.users.find? (fun u => u.email == email) with
  | none => rfl
  | some user =>
    by_cases hcmp : bcryptCompare pwd user.password_hash = true
    · simp [hcmp]
    · simp [hcmp]

/-- C9 counterexample: a network failure of the startup silent refresh
clears the cached identity and tokens instead of leaving them in place. -/
theorem silent_refresh_clears_on_network_failure :
    tryRefresh storAlice .networkFailure = clearedStorage ∧
    (tryRefresh storAlice .networkFailure == storAlice) = false := by decide

/-- C9 amended: a network failure of an ordinary request is rejected to
the caller with client storage untouched (the interceptor acts only on
status-401 responses), but in the refresh paths a network failure is
handled exactly like an authentication rejection: the startup silent
refresh clears all cached credential state, and a network failure of the
refresh performed inside the interceptor forces the logout redirect. -/
theorem network_failure_paths (storage : ClientStorage) (retried : Bool)
    (outcome : RefreshCallOutcome) (rt : TokenCandidate) :
    interceptorHandleError storage none retried outcome =
      (storage, .rejectedToCaller) ∧
    (storage.refreshToken = some rt →
      tryRefresh storage .networkFailure = clearedStorage) ∧
    interceptorHandleError storage (some 401) false .networkFailure =
      (clearedStorage, .loggedOutRedirect) := by
  refine ⟨by simp [interceptorHandleError], ?_, by simp [interceptorHandleError]⟩
  intro h
  unfold tryRefresh
  rw [h]

/-- Witness for the amended C9 at concrete inputs: alice's populated
client storage under a network failure. -/
theorem network_failure_paths_witness :
    interceptorHandleError storAlice none false .networkFailure =
      (storAlice, .rejectedToCaller) ∧
    tryRefresh storAlice .networkFailure = clearedStorage :=
  ⟨(network_failure_paths storAlice false .networkFailure (.wellFormed aliceRefresh)).1,
   (network_failure_paths storAlice false .networkFailure (.wellFormed aliceRefresh)).2.1 rfl⟩

end Skillcast
